import Mathlib

set_option autoImplicit false

/-!
Shallow embedding of `ha-knx-datalogger.py` (Home Assistant entity analyzer
and group monitor).  Python dictionaries of entity attributes are embedded as
association lists over a `Value` type; Python operations that can raise
(`.lower()` on a non-string, `in` on a non-string, `&` on a non-int) return
`Except PyErr`.  The change-detection monitor is embedded as a deterministic
fold over the caller-supplied entity list and an abstract per-tick fetch
oracle, producing the CSV rows, the last-known-value table and an event trace.
-/

namespace HaKnx

/-- A Python attribute value as it occurs in an entity dictionary:
a string, an integer, or `None`. -/
inductive Value where
  | vStr (s : String)
  | vInt (n : Int)
  | vNone
  deriving DecidableEq, Repr

/-- Python exceptions that the embedded code can raise. -/
inductive PyErr where
  | typeError
  | attributeError
  deriving DecidableEq, Repr

/-- `d.get(k, dflt)` on a Python dict embedded as an association list. -/
def pyGetD (d : List (String × Value)) (k : String) (dflt : Value) : Value :=
  ((d.find? (fun p => p.1 == k)).map (·.2)).getD dflt

/-- Python substring containment `sub in s` for two strings. -/
def strContains (s sub : String) : Bool :=
  (List.range (s.length + 1)).any (fun i => sub.toList.isPrefixOf (s.toList.drop i))

/-- ASCII lower-casing, modelling Python `str.lower()` on the character set
the program's tables and ids use (accented letters in the keyword tables are
already lower case). -/
def lowerStr (s : String) : String := String.mk (s.toList.map Char.toLower)

/-- `v.lower()`: succeeds only on a string value (`AttributeError` otherwise). -/
def pyLower : Value → Except PyErr String
  | .vStr s => .ok (lowerStr s)
  | _ => .error .attributeError

/-- `sub in v` where `sub` is a string literal: `TypeError` when `v` is not a
string. -/
def pyInStr (sub : String) : Value → Except PyErr Bool
  | .vStr s => .ok (strContains s sub)
  | _ => .error .typeError

/-- Python `==` between attribute values (never raises). -/
def pyEq : Value → Value → Bool
  | .vStr a, .vStr b => a == b
  | .vInt a, .vInt b => a == b
  | .vNone, .vNone => true
  | _, _ => false

/-- Python `&` between attribute values: defined on integers only
(`TypeError` otherwise). -/
def pyAnd (a b : Value) : Except PyErr Int :=
  match a, b with
  | .vInt a, .vInt b => .ok (Int.land a b)
  | _, _ => .error .typeError

/-- Python `str(v)`. -/
def pyStr : Value → String
  | .vStr s => s
  | .vInt n => toString n
  | .vNone => "None"

/-- One entity record from the `/api/states` snapshot, as the dict the code
reads: `entity.get("entity_id")`, `entity.get("state", ...)` and
`entity.get("attributes", \x7b\x7d)`.  A missing key is `none`; a missing
attributes dict behaves exactly like the empty dict, so it is embedded as
`[]`. -/
structure PyEntity where
  entity_id : Option Value
  state : Option Value
  attributes : List (String × Value)
  deriving DecidableEq, Repr

/-- The `room_keywords` table of `detect_rooms`, in source order. -/
def room_keywords : List (String × String) :=
  [("salon", "Salón"), ("salón", "Salón"), ("sala", "Salón"), ("living", "Salón"),
   ("cocina", "Cocina"), ("kitchen", "Cocina"),
   ("dormitorio", "Dormitorio"), ("habitacion", "Dormitorio"),
   ("habitación", "Dormitorio"), ("cuarto", "Dormitorio"), ("bedroom", "Dormitorio"),
   ("baño", "Baño"), ("bano", "Baño"), ("aseo", "Baño"), ("bathroom", "Baño"),
   ("pasillo", "Pasillo"), ("corredor", "Pasillo"), ("hall", "Pasillo"),
   ("entrada", "Entrada"), ("recibidor", "Entrada"),
   ("garaje", "Garaje"), ("garage", "Garaje"),
   ("jardin", "Jardín"), ("jardín", "Jardín"),
   ("exterior", "Exterior"), ("terraza", "Terraza"),
   ("balcon", "Balcón"), ("balcón", "Balcón"),
   ("despacho", "Despacho"), ("oficina", "Despacho"), ("estudio", "Despacho"),
   ("comedor", "Comedor"),
   ("principal", "Principal"), ("master", "Principal"),
   ("niños", "Niños"), ("ninos", "Niños"),
   ("invitados", "Invitados")]

/-- `rooms.add(r)` on a Python set, embedded as an insertion-ordered
deduplicated list. -/
def addRoom (rooms : List String) (r : String) : List String :=
  if r ∈ rooms then rooms else rooms ++ [r]

/-- One entity's contribution to `detect_rooms`: lower `entity_id` and
`friendly_name`, then scan every keyword. -/
def detectRoomsEntity (rooms : List String) (e : PyEntity) :
    Except PyErr (List String) := do
  let entity_id ← pyLower (e.entity_id.getD (.vStr ""))
  let friendly_name ← pyLower (pyGetD e.attributes "friendly_name" (.vStr ""))
  return room_keywords.foldl (fun rs kw =>
    if strContains entity_id kw.1 || strContains friendly_name kw.1 then
      addRoom rs kw.2
    else rs) rooms

/-- `detect_rooms`: the RoomSet inferred from a snapshot. -/
def detect_rooms (entities : List PyEntity) : Except PyErr (List String) :=
  entities.foldlM detectRoomsEntity []

/-- The scan of `_extract_room`: first room label whose lower-cased text is a
substring of the entity id or the friendly name. -/
def findRoom (entity_id friendly_name : String) : List String → Option String
  | [] => none
  | r :: rest =>
    if strContains entity_id (lowerStr r) || strContains friendly_name (lowerStr r) then
      some r
    else findRoom entity_id friendly_name rest

/-- `_extract_room(entity)` against a given RoomSet. -/
def extract_room (rooms : List String) (e : PyEntity) :
    Except PyErr (Option String) := do
  let entity_id ← pyLower (e.entity_id.getD (.vStr ""))
  let friendly_name ← pyLower (pyGetD e.attributes "friendly_name" (.vStr ""))
  return findRoom entity_id friendly_name rooms

/-- The record returned by `classify_light`. -/
structure LightClass where
  entity_id : Value
  friendly_name : Value
  type : String
  capabilities : List String
  room : Option String
  deriving DecidableEq, Repr

/-- `classify_light(entity)`: category from the `supported_features`
bitmask.  Evaluation order follows the source: the classification dict
(including the `_extract_room` call) is built first, then the bit tests run,
each `&` raising `TypeError` on a non-integer mask. -/
def classify_light (rooms : List String) (e : PyEntity) :
    Except PyErr LightClass := do
  let entity_id := e.entity_id.getD .vNone
  let attributes := e.attributes
  let supported_features := pyGetD attributes "supported_features" (.vInt 0)
  let friendly_name := pyGetD attributes "friendly_name" entity_id
  let room ← extract_room rooms e
  if pyEq supported_features (.vInt 0) then
    return { entity_id, friendly_name, type := "switch",
             capabilities := ["on/off"], room }
  else do
    let b1 ← pyAnd supported_features (.vInt 1)
    let ty1 := if b1 ≠ 0 then "dimmable" else "switch"
    let caps1 : List String := if b1 ≠ 0 then ["brillo"] else []
    let b16 ← pyAnd supported_features (.vInt 16)
    let ty2 := if b16 ≠ 0 then "rgb" else ty1
    let caps2 := if b16 ≠ 0 then caps1 ++ ["color RGB"] else caps1
    let b128 ← pyAnd supported_features (.vInt 128)
    let ty3 := if b128 ≠ 0 then (if strContains ty2 "rgb" then ty2 else "tunable_white")
               else ty2
    let caps3 := if b128 ≠ 0 then caps2 ++ ["temperatura color"] else caps2
    let b4 ← pyAnd supported_features (.vInt 4)
    let caps4 := if b4 ≠ 0 then caps3 ++ ["efectos"] else caps3
    let capabilities := if caps4 = [] then ["on/off"] else caps4
    return { entity_id, friendly_name, type := ty3, capabilities, room }

/-- The `sensor_types` device-class table of `classify_sensor`. -/
def sensor_types : List (String × String) :=
  [("temperature", "Temperatura"), ("humidity", "Humedad"),
   ("pressure", "Presión"), ("battery", "Batería"), ("power", "Potencia"),
   ("energy", "Energía"), ("voltage", "Voltaje"), ("current", "Corriente"),
   ("illuminance", "Iluminancia"), ("motion", "Movimiento"),
   ("occupancy", "Ocupación"), ("opening", "Apertura"),
   ("presence", "Presencia"), ("smoke", "Humo"), ("gas", "Gas"),
   ("carbon_monoxide", "Monóxido de carbono"),
   ("moisture", "Humedad/Inundación"), ("pm25", "Partículas PM2.5"),
   ("pm10", "Partículas PM10"), ("carbon_dioxide", "CO2"),
   ("volatile_organic_compounds", "VOC"), ("aqi", "Calidad del aire")]

/-- `tbl.get(k, dflt)` where the key is an arbitrary attribute value: a
non-string key simply misses (Python dict lookup does not raise here). -/
def tableGetStr (tbl : List (String × String)) (k : Value) (dflt : String) :
    String :=
  match k with
  | .vStr s => ((tbl.find? (fun p => p.1 == s)).map (·.2)).getD dflt
  | _ => dflt

/-- The record returned by `classify_sensor`. -/
structure SensorClass where
  entity_id : Value
  friendly_name : Value
  type : String
  unit : Value
  current_value : Value
  room : Option String
  deriving DecidableEq, Repr

/-- `classify_sensor(entity)`: device-class table first, then the
unit-of-measurement substring fallback chain, then the id-keyword fallback,
in exactly the source's branch order (`"W" in unit` is tested before
`"Wh" in unit`). -/
def classify_sensor (rooms : List String) (e : PyEntity) :
    Except PyErr SensorClass := do
  let entity_id := e.entity_id.getD .vNone
  let attributes := e.attributes
  let device_class := pyGetD attributes "device_class" (.vStr "")
  let unit := pyGetD attributes "unit_of_measurement" (.vStr "")
  let state := e.state.getD (.vStr "")
  let st0 := tableGetStr sensor_types device_class ""
  let sensor_type ←
    if st0 ≠ "" then pure st0
    else do
      let c1 ← pyInStr "°C" unit
      if c1 then pure "Temperatura" else do
      let c2 ← pyInStr "°F" unit
      if c2 then pure "Temperatura" else do
      let c3 ← pyInStr "%" unit
      if c3 then do
        let idl ← pyLower entity_id
        pure (if strContains idl "batt" then "Batería" else "Humedad")
      else do
      let c4 ← pyInStr "W" unit
      if c4 then pure "Potencia" else do
      let c5 ← pyInStr "kW" unit
      if c5 then pure "Potencia" else do
      let c6 ← pyInStr "Wh" unit
      if c6 then pure "Energía" else do
      let c7 ← pyInStr "kWh" unit
      if c7 then pure "Energía" else do
      let c8 ← pyInStr "lx" unit
      if c8 then pure "Iluminancia" else do
      let c9 ← pyInStr "ppm" unit
      if c9 then pure "CO2" else do
      let name_lower ← pyLower entity_id
      pure (if strContains name_lower "temp" || strContains name_lower "ta_" then
              "Temperatura"
            else if strContains name_lower "hum" then "Humedad"
            else if strContains name_lower "motion" || strContains name_lower "movimiento" then
              "Movimiento"
            else if strContains name_lower "door" || strContains name_lower "puerta" then
              "Apertura puerta"
            else if strContains name_lower "window" || strContains name_lower "ventana" then
              "Apertura ventana"
            else "Otro")
  let friendly_name := pyGetD attributes "friendly_name" entity_id
  let room ← extract_room rooms e
  return { entity_id, friendly_name, type := sensor_type, unit,
           current_value := state, room }

/-! ### Change-detection monitor (`start_group_monitoring` / `monitor_loop`)

The monitor is embedded as a deterministic simulation: the per-entity state
fetch is an oracle (`String → Option PyState` for the baseline,
`Nat → String → Option PyState` indexed by tick for the loop), wall-clock
timestamps are an abstract counter, and the session runs a given number of
full ticks before the stop flag is observed (cancellation is cooperative
and checked at the tick boundary).  Besides the CSV rows and the
last-known-value table, the simulation records an event trace so that
ordering contracts (write-then-flush, header emission) can be stated. -/

/-- One selected entity, as the `entity_info` dict built by
`list_all_entities_numbered` (the fields the monitor reads). -/
structure SelEntity where
  entity_id : String
  friendly_name : String
  domain : String
  deriving DecidableEq, Repr

/-- The JSON dict returned by a successful `get_current_state` call:
`current_state.get('state', 'unknown')` and `current_state.get('attributes', \x7b\x7d)`. -/
structure PyState where
  state : Option String
  attributes : List (String × Value)
  deriving DecidableEq, Repr

/-- `current_state.get('state', 'unknown')`. -/
def stateValue (ps : PyState) : String := ps.state.getD "unknown"

/-- One CSV record.  Timestamps are abstract clock readings; the two
`attr_` columns are present only when the attribute exists at that tick. -/
structure Row where
  timestamp : Nat
  entity_id : String
  friendly_name : String
  domain : String
  state : String
  attr_unit_of_measurement : Option String
  attr_device_class : Option String
  deriving DecidableEq, Repr

/-- `d.get(k)` on an attributes dict. -/
def dictGetV (d : List (String × Value)) (k : String) : Option Value :=
  (d.find? (fun p => p.1 == k)).map (·.2)

/-- Build the CSV row the monitor writes for one observation. -/
def mkRow (t : Nat) (e : SelEntity) (sv : String)
    (attrs : List (String × Value)) : Row :=
  { timestamp := t, entity_id := e.entity_id, friendly_name := e.friendly_name,
    domain := e.domain, state := sv,
    attr_unit_of_measurement := (dictGetV attrs "unit_of_measurement").map pyStr,
    attr_device_class := (dictGetV attrs "device_class").map pyStr }

/-- `last_states.get(entity_id)` on the last-known-value table. -/
def tblGet (t : List (String × String)) (k : String) : Option String :=
  (t.find? (fun p => p.1 == k)).map (·.2)

/-- `last_states[entity_id] = v`: replace in place, or append a new key. -/
def tblSet : List (String × String) → String → String → List (String × String)
  | [], k, v => [(k, v)]
  | (k', v') :: rest, k, v =>
    if k' == k then (k, v) :: rest else (k', v') :: tblSet rest k v

/-- `new_state != old_state` where the table entry may be absent
(in Python a string never equals `None`, so absence counts as changed). -/
def changedB (new : String) : Option String → Bool
  | none => true
  | some old => new != old

/-- Observable monitor actions, in program order. -/
inductive MEvent where
  | openSink (existed : Bool)
  | header
  | fetch (id : String) (ok : Bool)
  | write
  | flush
  | stats
  | sleep
  | closeSink
  deriving DecidableEq, Repr

/-- Accumulated state of the initialization (baseline) phase. -/
structure BaseAcc where
  clock : Nat
  last_states : List (String × String)
  rows : List Row
  events : List MEvent
  deriving DecidableEq, Repr

/-- One entity of the baseline loop: fetch once; on success seed the table
and unconditionally write one snapshot row (no flush yet). -/
def baselineEntity (fetch : String → Option PyState) (acc : BaseAcc)
    (e : SelEntity) : BaseAcc :=
  match fetch e.entity_id with
  | none => { acc with events := acc.events ++ [.fetch e.entity_id false] }
  | some ps =>
    let sv := stateValue ps
    { clock := acc.clock + 1,
      last_states := tblSet acc.last_states e.entity_id sv,
      rows := acc.rows ++ [mkRow acc.clock e sv ps.attributes],
      events := acc.events ++ [.fetch e.entity_id true, .write] }

/-- The whole baseline loop followed by the single `csvfile.flush()` that the
source performs after it. -/
def baselineRun (fetch : String → Option PyState) (sel : List SelEntity)
    (clock0 : Nat) : BaseAcc :=
  let acc := sel.foldl (baselineEntity fetch)
    { clock := clock0, last_states := [], rows := [], events := [] }
  { acc with events := acc.events ++ [.flush] }

/-- Accumulated state of the polling loop. -/
structure LoopSt where
  clock : Nat
  last_states : List (String × String)
  rows : List Row
  events : List MEvent
  changes_count : Nat
  checks_count : Nat
  deriving DecidableEq, Repr

/-- One entity inside one tick: fetch; on failure skip; on success compare to
the table and, only if changed, write one row, flush, and update the table. -/
def tickEntity (fetch : String → Option PyState) (t : Nat) (st : LoopSt)
    (e : SelEntity) : LoopSt :=
  match fetch e.entity_id with
  | none => { st with events := st.events ++ [.fetch e.entity_id false] }
  | some ps =>
    let new_state := stateValue ps
    let old_state := tblGet st.last_states e.entity_id
    if changedB new_state old_state then
      { st with
        last_states := tblSet st.last_states e.entity_id new_state,
        rows := st.rows ++ [mkRow t e new_state ps.attributes],
        events := st.events ++ [.fetch e.entity_id true, .write, .flush],
        changes_count := st.changes_count + 1 }
    else { st with events := st.events ++ [.fetch e.entity_id true] }

/-- One full tick: bump `checks_count`, take one timestamp, visit every
entity in selection order, emit the every-100-ticks counters line, sleep. -/
def oneTick (fetch : String → Option PyState) (sel : List SelEntity)
    (st : LoopSt) : LoopSt :=
  let st1 := { st with checks_count := st.checks_count + 1, clock := st.clock + 1 }
  let st2 := sel.foldl (tickEntity fetch st.clock) st1
  { st2 with events := st2.events
      ++ (if st1.checks_count % 100 == 0 then [MEvent.stats] else [])
      ++ [MEvent.sleep] }

/-- Run ticks `k, k+1, …, k+n-1` of the polling loop. -/
def runTicks (fetchT : Nat → String → Option PyState) (sel : List SelEntity) :
    Nat → Nat → LoopSt → LoopSt
  | _, 0, st => st
  | k, n + 1, st => runTicks fetchT sel (k + 1) n (oneTick (fetchT k) sel st)

/-- `monitor_loop`: `n` full ticks, then the stop flag is observed at the top
of the next iteration and the worker closes the sink as its last action. -/
def monitor_loop (fetchT : Nat → String → Option PyState)
    (sel : List SelEntity) (n : Nat) (st : LoopSt) : LoopSt :=
  let st := runTicks fetchT sel 0 n st
  { st with events := st.events ++ [.closeSink] }

/-- Outcome of one `start_group_monitoring` session. -/
structure SessionResult where
  configError : Bool
  sinkOpened : Bool
  headerWritten : Bool
  baselineRows : List Row
  baseline_last_states : List (String × String)
  tickRows : List Row
  last_states : List (String × String)
  events : List MEvent
  changes_count : Nat
  checks_count : Nat
  deriving DecidableEq, Repr

/-- `start_group_monitoring`: the empty-selection guard, the sink open with
header-on-creation, the baseline phase, and `n` ticks of the polling loop. -/
def start_group_monitoring (fileExists : Bool)
    (fetchB : String → Option PyState) (fetchT : Nat → String → Option PyState)
    (sel : List SelEntity) (n : Nat) : SessionResult :=
  if sel = [] then
    { configError := true, sinkOpened := false, headerWritten := false,
      baselineRows := [], baseline_last_states := [], tickRows := [],
      last_states := [], events := [], changes_count := 0, checks_count := 0 }
  else
    let evs0 := [MEvent.openSink fileExists]
      ++ (if fileExists then [] else [MEvent.header])
    let base := baselineRun fetchB sel 0
    let st0 : LoopSt := { clock := base.clock, last_states := base.last_states,
                          rows := [], events := [], changes_count := 0,
                          checks_count := 0 }
    let fin := monitor_loop fetchT sel n st0
    { configError := false, sinkOpened := true, headerWritten := !fileExists,
      baselineRows := base.rows, baseline_last_states := base.last_states,
      tickRows := fin.rows, last_states := fin.last_states,
      events := evs0 ++ base.events ++ fin.events,
      changes_count := fin.changes_count, checks_count := fin.checks_count }

/-- Number of sink records carrying a given entity id. -/
def countRows (id : String) (rows : List Row) : Nat :=
  (rows.filter (fun r => r.entity_id == id)).length

/-- The per-entity sequence of fetch outcomes over ticks `k, …, k+n-1`
(`none` = failed fetch, `some s` = fetched raw state string). -/
def entityTickResults (fetchT : Nat → String → Option PyState) (id : String)
    (k n : Nat) : List (Option String) :=
  (List.range' k n).map (fun j => (fetchT j id).map stateValue)

/-- The recorded state after replaying a sequence of fetch outcomes against
the change-detection rule. -/
def recAfter (cur : Option String) : List (Option String) → Option String
  | [] => cur
  | none :: rest => recAfter cur rest
  | some s :: rest =>
    if changedB s cur then recAfter (some s) rest else recAfter cur rest

/-- How many of the fetch outcomes differ from the recorded state current at
their position (the spec's change count). -/
def countTransitions (cur : Option String) : List (Option String) → Nat
  | [] => 0
  | none :: rest => countTransitions cur rest
  | some s :: rest =>
    if changedB s cur then countTransitions (some s) rest + 1
    else countTransitions cur rest

/-- Durability scan: walks a trace tracking whether some written record is
still unflushed (`pending`); fails (`none`) when the worker sleeps or closes
the sink with a write pending, otherwise returns the final pending flag. -/
def flushScan : Bool → List MEvent → Option Bool
  | pending, [] => some pending
  | _, .write :: rest => flushScan true rest
  | _, .flush :: rest => flushScan false rest
  | pending, .sleep :: rest =>
    if pending then none else flushScan false rest
  | pending, .closeSink :: rest =>
    if pending then none else flushScan false rest
  | pending, _ :: rest => flushScan pending rest

/-- Every written record is flushed before the worker next sleeps or closes
the sink, and no write is left pending at the end of the trace. -/
def writesFlushed (evs : List MEvent) : Bool :=
  flushScan false evs == some false

/-- Immediacy scan: `pending` means the previous event was a write whose
flush must come next; any other event while pending fails (`none`). -/
def immedScan : Bool → List MEvent → Option Bool
  | p, [] => some p
  | true, .flush :: rest => immedScan false rest
  | true, _ :: _ => none
  | false, .write :: rest => immedScan true rest
  | false, _ :: rest => immedScan false rest

/-- Every write is *immediately* followed by a flush, with no other step in
between. -/
def writesImmediatelyFlushed (evs : List MEvent) : Bool :=
  immedScan false evs == some false

/-! ### Concrete fixtures used by counterexamples and witnesses -/

/-- A selected entity fixture. -/
def seKitchen : SelEntity :=
  { entity_id := "light.kitchen", friendly_name := "Kitchen", domain := "light" }

/-- A second selected entity fixture. -/
def seSalon : SelEntity :=
  { entity_id := "light.salon", friendly_name := "Salon", domain := "light" }

/-- A fetch oracle that always succeeds with state `off`. -/
def constFetch : String → Option PyState :=
  fun _ => some { state := some "off", attributes := [] }

/-- A tick-indexed fetch oracle built over `constFetch`. -/
def constFetchT : Nat → String → Option PyState := fun _ => constFetch

/-- The spec's example tick sequence for `light.kitchen`: `off`, `on`,
a failed fetch, then `on` again. -/
def scenarioFetchT : Nat → String → Option PyState := fun k _ =>
  if k = 0 then some { state := some "off", attributes := [] }
  else if k = 1 then some { state := some "on", attributes := [] }
  else if k = 2 then none
  else some { state := some "on", attributes := [] }

/-- A fetch oracle that succeeds for `light.kitchen` only. -/
def mixedFetch : String → Option PyState := fun id =>
  if id = "light.kitchen" then some { state := some "off", attributes := [] }
  else none

/-- A fetched state fixture. -/
def offPS : PyState := { state := some "off", attributes := [] }

/-- An empty polling-loop state fixture. -/
def st0Empty : LoopSt :=
  { clock := 0, last_states := [], rows := [], events := [],
    changes_count := 0, checks_count := 0 }

/-- A sensor with no `device_class` whose unit is `Wh`. -/
def whMeter : PyEntity :=
  { entity_id := some (.vStr "sensor.meter_total"), state := some (.vStr "1234"),
    attributes := [("unit_of_measurement", .vStr "Wh")] }

/-- A sensor with no `device_class` whose unit is `kWh`. -/
def kwhMeter : PyEntity :=
  { entity_id := some (.vStr "sensor.meter_total"), state := some (.vStr "12.3"),
    attributes := [("unit_of_measurement", .vStr "kWh")] }

/-- A sensor whose `unit_of_measurement` attribute is present but `None`. -/
def noneUnitSensor : PyEntity :=
  { entity_id := some (.vStr "sensor.x"), state := none,
    attributes := [("unit_of_measurement", .vNone)] }

/-- A light whose `supported_features` attribute is present but a string. -/
def strFeaturesLight : PyEntity :=
  { entity_id := some (.vStr "light.x"), state := none,
    attributes := [("supported_features", .vStr "19")] }

/-- A sensor record lacking the `entity_id` key altogether. -/
def noIdSensor : PyEntity :=
  { entity_id := none, state := none, attributes := [] }

/-- An entity whose id contains the room keyword `kitchen` but not the
canonical label `Cocina`. -/
def kitchenLight : PyEntity :=
  { entity_id := some (.vStr "light.kitchen"), state := none, attributes := [] }

/-- A light with feature mask 145 = bits 0, 4 and 7. -/
def rgbLight : PyEntity :=
  { entity_id := some (.vStr "light.salon_rgb"), state := none,
    attributes := [("supported_features", .vInt 145)] }

/-- A light with feature mask 2 (nonzero, but no recognized bit). -/
def plainLight : PyEntity :=
  { entity_id := some (.vStr "light.pasillo"), state := none,
    attributes := [("supported_features", .vInt 2)] }

/-! ### Well-typed attribute values -/

/-- The string carried by a value (`""` for non-strings); used only to state
evaluation lemmas for well-typed inputs. -/
def Value.sOf : Value → String
  | .vStr s => s
  | _ => ""

/-- Does a value carry a Python string? -/
def isStrV : Value → Bool
  | .vStr _ => true
  | _ => false

/-- Does a value carry a Python integer? -/
def isIntV : Value → Bool
  | .vInt _ => true
  | _ => false

/-- The typing discipline the classification rules actually need to avoid
raising: `entity_id` present and a string, and `friendly_name`,
`unit_of_measurement` strings and `supported_features` an integer whenever
they are present. -/
def WellTypedEntity (e : PyEntity) : Bool :=
  isStrV (e.entity_id.getD .vNone)
    && isStrV (pyGetD e.attributes "friendly_name" (.vStr ""))
    && isStrV (pyGetD e.attributes "unit_of_measurement" (.vStr ""))
    && isIntV (pyGetD e.attributes "supported_features" (.vInt 0))

/-- Is a result a success? -/
def isOkE {ε α : Type} : Except ε α → Bool
  | .ok _ => true
  | .error _ => false

/-- The category `classify_light` computes as a function of an integer
feature mask (established in `classify_light_eq`, not assumed). -/
def lightTypeOf (m : Int) : String :=
  if Int.land m 16 ≠ 0 then "rgb"
  else if Int.land m 128 ≠ 0 then "tunable_white"
  else if Int.land m 1 ≠ 0 then "dimmable"
  else "switch"

/-- The capability list `classify_light` computes as a function of an
integer feature mask. -/
def lightCapsOf (m : Int) : List String :=
  let caps := (if Int.land m 1 ≠ 0 then ["brillo"] else [])
    ++ (if Int.land m 16 ≠ 0 then ["color RGB"] else [])
    ++ (if Int.land m 128 ≠ 0 then ["temperatura color"] else [])
    ++ (if Int.land m 4 ≠ 0 then ["efectos"] else [])
  if caps = [] then ["on/off"] else caps


@[simp] theorem ok_bind {ε α β : Type} (a : α) (f : α → Except ε β) :
    (Except.ok a : Except ε α) >>= f = f a := rfl

@[simp] theorem error_bind {ε α β : Type} (er : ε) (f : α → Except ε β) :
    (Except.error er : Except ε α) >>= f = Except.error er := rfl

theorem eq_vStr_of_isStrV {v : Value} (h : isStrV v = true) : ∃ s, v = .vStr s := by
  cases v with
  | vStr s => exact ⟨s, rfl⟩
  | vInt n => simp [isStrV] at h
  | vNone => simp [isStrV] at h

theorem eq_vInt_of_isIntV {v : Value} (h : isIntV v = true) : ∃ n, v = .vInt n := by
  cases v with
  | vStr s => simp [isIntV] at h
  | vInt n => exact ⟨n, rfl⟩
  | vNone => simp [isIntV] at h

theorem entity_id_vStr {e : PyEntity} (h : isStrV (e.entity_id.getD .vNone) = true) :
    ∃ s, e.entity_id = some (.vStr s) := by
  cases hid : e.entity_id with
  | none => rw [hid] at h; simp [isStrV] at h
  | some v =>
    rw [hid] at h
    obtain ⟨s, rfl⟩ := eq_vStr_of_isStrV h
    exact ⟨s, rfl⟩

theorem extract_room_ok {rooms : List String} {e : PyEntity}
    (hid : isStrV (e.entity_id.getD .vNone) = true)
    (hfn : isStrV (pyGetD e.attributes "friendly_name" (.vStr "")) = true) :
    extract_room rooms e =
      .ok (findRoom (lowerStr ((e.entity_id.getD .vNone).sOf))
            (lowerStr ((pyGetD e.attributes "friendly_name" (.vStr "")).sOf)) rooms) := by
  obtain ⟨sid, hid'⟩ := entity_id_vStr hid
  obtain ⟨fn, hfn'⟩ := eq_vStr_of_isStrV hfn
  simp [extract_room, hid', hfn', pyLower, Value.sOf]

@[simp] theorem pure_eq_ok {ε α : Type} (a : α) : (pure a : Except ε α) = .ok a := rfl

/-- Full evaluation of `classify_light` on a well-typed entity. -/
theorem classify_light_eq {rooms : List String} {e : PyEntity} {m : Int}
    (hid : isStrV (e.entity_id.getD .vNone) = true)
    (hfn : isStrV (pyGetD e.attributes "friendly_name" (.vStr "")) = true)
    (hsf : pyGetD e.attributes "supported_features" (.vInt 0) = .vInt m) :
    classify_light rooms e = .ok
      { entity_id := e.entity_id.getD .vNone,
        friendly_name := pyGetD e.attributes "friendly_name" (e.entity_id.getD .vNone),
        type := lightTypeOf m,
        capabilities := lightCapsOf m,
        room := findRoom (lowerStr ((e.entity_id.getD .vNone).sOf))
          (lowerStr ((pyGetD e.attributes "friendly_name" (.vStr "")).sOf)) rooms } := by
  have hroom := @extract_room_ok rooms _ hid hfn
  by_cases hm : m = 0
  · subst hm
    simp [classify_light, hsf, hroom, pyEq, lightTypeOf, lightCapsOf,
      show Int.land 0 16 = 0 from rfl, show Int.land 0 128 = 0 from rfl,
      show Int.land 0 1 = 0 from rfl, show Int.land 0 4 = 0 from rfl]
  · simp only [classify_light, hsf, hroom, pyEq, beq_iff_eq, if_neg hm, ok_bind,
      pyAnd, pure_eq_ok, Except.ok.injEq]
    by_cases h1 : Int.land m 1 = 0 <;> by_cases h16 : Int.land m 16 = 0 <;>
      by_cases h128 : Int.land m 128 = 0 <;> by_cases h4 : Int.land m 4 = 0 <;>
      simp [h1, h16, h128, h4, lightTypeOf, lightCapsOf,
        show strContains "rgb" "rgb" = true from rfl,
        show strContains "dimmable" "rgb" = false from rfl,
        show strContains "switch" "rgb" = false from rfl]

theorem land_natCast (a b : Nat) :
    Int.land (a : Int) (b : Int) = ((a &&& b : Nat) : Int) := rfl

theorem land_pow_ne_zero_iff (a i : Nat) :
    (Int.land (a : Int) (((2 ^ i : Nat) : Nat) : Int) ≠ 0) ↔ a.testBit i = true := by
  rw [land_natCast, Nat.and_two_pow]
  cases h : a.testBit i <;> simp [Nat.pow_eq_zero]

theorem land_1_ne_zero (m : Nat) :
    (Int.land (m : Int) 1 ≠ 0) ↔ m.testBit 0 = true := land_pow_ne_zero_iff m 0

theorem land_4_ne_zero (m : Nat) :
    (Int.land (m : Int) 4 ≠ 0) ↔ m.testBit 2 = true := land_pow_ne_zero_iff m 2

theorem land_16_ne_zero (m : Nat) :
    (Int.land (m : Int) 16 ≠ 0) ↔ m.testBit 4 = true := land_pow_ne_zero_iff m 4

theorem land_128_ne_zero (m : Nat) :
    (Int.land (m : Int) 128 ≠ 0) ↔ m.testBit 7 = true := land_pow_ne_zero_iff m 7

theorem exists_ok {ε α : Type} {x : Except ε α} (h : isOkE x = true) :
    ∃ a, x = .ok a := by
  cases x with
  | ok a => exact ⟨a, rfl⟩
  | error er => simp [isOkE] at h

theorem isOkE_ite {ε α : Type} (c : Prop) [Decidable c] (a b : Except ε α)
    (ha : isOkE a = true) (hb : isOkE b = true) :
    isOkE (if c then a else b) = true := by
  by_cases h : c <;> simp [h, ha, hb]

/-- `classify_sensor` succeeds on every entity whose id, friendly name and
unit are (defaulted) strings. -/
theorem classify_sensor_ok {rooms : List String} {e : PyEntity}
    (hid : isStrV (e.entity_id.getD .vNone) = true)
    (hfn : isStrV (pyGetD e.attributes "friendly_name" (.vStr "")) = true)
    (hunit : isStrV (pyGetD e.attributes "unit_of_measurement" (.vStr "")) = true) :
    ∃ s, classify_sensor rooms e = .ok s := by
  obtain ⟨sid, hid'⟩ := entity_id_vStr hid
  obtain ⟨su, hu⟩ := eq_vStr_of_isStrV hunit
  have hroom := @extract_room_ok rooms _ hid hfn
  apply exists_ok
  simp only [classify_sensor, hu, hid', hroom, pyInStr, pyLower, ok_bind,
    pure_eq_ok, Option.getD_some]
  repeat' first
  | rfl
  | apply isOkE_ite

/-! ### Last-known-value table and row-count lemmas -/

theorem tblGet_cons_self (k v : String) (t : List (String × String)) :
    tblGet ((k, v) :: t) k = some v := by
  simp [tblGet, List.find?_cons]

theorem tblGet_cons_ne (k0 v0 k : String) (t : List (String × String))
    (h : k0 ≠ k) : tblGet ((k0, v0) :: t) k = tblGet t k := by
  simp [tblGet, List.find?_cons, beq_eq_false_iff_ne.mpr h]

theorem tblSet_cons_eq (k v v0 : String) (t : List (String × String)) :
    tblSet ((k, v0) :: t) k v = (k, v) :: t := by
  simp [tblSet]

theorem tblSet_cons_ne (k0 v0 k v : String) (t : List (String × String))
    (h : k0 ≠ k) : tblSet ((k0, v0) :: t) k v = (k0, v0) :: tblSet t k v := by
  simp [tblSet, beq_eq_false_iff_ne.mpr h]

theorem tblGet_tblSet_self (t : List (String × String)) (k v : String) :
    tblGet (tblSet t k v) k = some v := by
  induction t with
  | nil => exact tblGet_cons_self k v []
  | cons p rest ih =>
    obtain ⟨k', v'⟩ := p
    by_cases h : k' = k
    · subst h
      rw [tblSet_cons_eq]
      exact tblGet_cons_self k' v rest
    · rw [tblSet_cons_ne _ _ _ _ _ h, tblGet_cons_ne _ _ _ _ h]
      exact ih

theorem tblGet_tblSet_ne (t : List (String × String)) (k k' v : String)
    (h : k' ≠ k) : tblGet (tblSet t k v) k' = tblGet t k' := by
  induction t with
  | nil => exact tblGet_cons_ne k v k' [] (Ne.symm h)
  | cons p rest ih =>
    obtain ⟨k0, v0⟩ := p
    by_cases h0 : k0 = k
    · subst h0
      rw [tblSet_cons_eq, tblGet_cons_ne _ _ _ _ (Ne.symm h),
        tblGet_cons_ne _ _ _ _ (Ne.symm h)]
    · by_cases h1 : k0 = k'
      · subst h1
        rw [tblSet_cons_ne _ _ _ _ _ h0, tblGet_cons_self, tblGet_cons_self]
      · rw [tblSet_cons_ne _ _ _ _ _ h0, tblGet_cons_ne _ _ _ _ h1,
          tblGet_cons_ne _ _ _ _ h1]
        exact ih

theorem tblSet_length_of_not_mem (t : List (String × String)) (k v : String)
    (h : k ∉ t.map Prod.fst) : (tblSet t k v).length = t.length + 1 := by
  induction t with
  | nil => rfl
  | cons p rest ih =>
    obtain ⟨k0, v0⟩ := p
    simp only [List.map_cons, List.mem_cons, not_or] at h
    rw [tblSet_cons_ne _ _ _ _ _ (Ne.symm h.1)]
    simp [ih h.2]

theorem tblSet_keys_of_not_mem (t : List (String × String)) (k v : String)
    (h : k ∉ t.map Prod.fst) :
    (tblSet t k v).map Prod.fst = t.map Prod.fst ++ [k] := by
  induction t with
  | nil => rfl
  | cons p rest ih =>
    obtain ⟨k0, v0⟩ := p
    simp only [List.map_cons, List.mem_cons, not_or] at h
    rw [tblSet_cons_ne _ _ _ _ _ (Ne.symm h.1)]
    simp [ih h.2]

theorem countRows_append (id : String) (a b : List Row) :
    countRows id (a ++ b) = countRows id a + countRows id b := by
  simp [countRows, List.filter_append]

theorem countRows_single_eq (id : String) (r : Row) (h : r.entity_id = id) :
    countRows id [r] = 1 := by
  simp [countRows, List.filter, h]

theorem countRows_single_ne (id : String) (r : Row) (h : r.entity_id ≠ id) :
    countRows id [r] = 0 := by
  simp [countRows, List.filter, beq_eq_false_iff_ne.mpr h]

/-! ### Baseline (initialization) phase lemmas -/

theorem baselineEntity_fields_none {f : String → Option PyState} {acc : BaseAcc}
    {e : SelEntity} (h : f e.entity_id = none) :
    (baselineEntity f acc e).rows = acc.rows
    ∧ (baselineEntity f acc e).last_states = acc.last_states := by
  simp [baselineEntity, h]

theorem baselineEntity_fields_some {f : String → Option PyState} {acc : BaseAcc}
    {e : SelEntity} {ps : PyState} (h : f e.entity_id = some ps) :
    (baselineEntity f acc e).rows =
      acc.rows ++ [mkRow acc.clock e (stateValue ps) ps.attributes]
    ∧ (baselineEntity f acc e).last_states =
      tblSet acc.last_states e.entity_id (stateValue ps) := by
  simp [baselineEntity, h]

theorem baseline_fold_rows_length (f : String → Option PyState) :
    ∀ (sel : List SelEntity) (acc : BaseAcc),
      (List.foldl (baselineEntity f) acc sel).rows.length =
        acc.rows.length + (sel.filter (fun e => (f e.entity_id).isSome)).length := by
  intro sel
  induction sel with
  | nil => intro acc; simp
  | cons e rest ih =>
    intro acc
    rw [List.foldl_cons, ih (baselineEntity f acc e)]
    cases h : f e.entity_id with
    | none =>
      rw [(baselineEntity_fields_none h).1]
      simp [List.filter_cons, h]
    | some ps =>
      rw [(baselineEntity_fields_some h).1]
      simp [List.filter_cons, h]
      omega

theorem baseline_fold_table_length (f : String → Option PyState) :
    ∀ (sel : List SelEntity) (acc : BaseAcc),
      (sel.map (fun e => e.entity_id)).Nodup →
      (∀ e ∈ sel, e.entity_id ∉ acc.last_states.map Prod.fst) →
      (List.foldl (baselineEntity f) acc sel).last_states.length =
        acc.last_states.length +
          (sel.filter (fun e => (f e.entity_id).isSome)).length := by
  intro sel
  induction sel with
  | nil => intro acc _ _; simp
  | cons e rest ih =>
    intro acc hnd hkeys
    simp only [List.map_cons, List.nodup_cons] at hnd
    cases h : f e.entity_id with
    | none =>
      have hk : ∀ e' ∈ rest,
          e'.entity_id ∉ (baselineEntity f acc e).last_states.map Prod.fst := by
        intro e' he'
        rw [(baselineEntity_fields_none h).2]
        exact hkeys e' (List.mem_cons_of_mem _ he')
      rw [List.foldl_cons, ih (baselineEntity f acc e) hnd.2 hk,
        (baselineEntity_fields_none h).2]
      simp [List.filter_cons, h]
    | some ps =>
      have hkself : e.entity_id ∉ acc.last_states.map Prod.fst :=
        hkeys e (List.mem_cons_self _ _)
      have hkeys' : (baselineEntity f acc e).last_states.map Prod.fst =
          acc.last_states.map Prod.fst ++ [e.entity_id] := by
        rw [(baselineEntity_fields_some h).2]
        exact tblSet_keys_of_not_mem _ _ _ hkself
      have hk : ∀ e' ∈ rest,
          e'.entity_id ∉ (baselineEntity f acc e).last_states.map Prod.fst := by
        intro e' he'
        rw [hkeys']
        simp only [List.mem_append, List.mem_singleton, not_or]
        refine ⟨hkeys e' (List.mem_cons_of_mem _ he'), fun hc => ?_⟩
        exact hnd.1 (hc ▸ List.mem_map_of_mem (fun x => x.entity_id) he')
      rw [List.foldl_cons, ih (baselineEntity f acc e) hnd.2 hk,
        (baselineEntity_fields_some h).2, tblSet_length_of_not_mem _ _ _ hkself]
      simp [List.filter_cons, h]
      omega

theorem baseline_fold_countRows_pres (f : String → Option PyState) (id : String) :
    ∀ (sel : List SelEntity) (acc : BaseAcc),
      (∀ e ∈ sel, e.entity_id ≠ id) →
      countRows id (List.foldl (baselineEntity f) acc sel).rows =
        countRows id acc.rows
      ∧ tblGet (List.foldl (baselineEntity f) acc sel).last_states id =
        tblGet acc.last_states id := by
  intro sel
  induction sel with
  | nil => intro acc _; exact ⟨rfl, rfl⟩
  | cons e rest ih =>
    intro acc hne
    have he : e.entity_id ≠ id := hne e (List.mem_cons_self _ _)
    have hrest : ∀ e' ∈ rest, e'.entity_id ≠ id :=
      fun e' h' => hne e' (List.mem_cons_of_mem _ h')
    obtain ⟨h1, h2⟩ := ih (baselineEntity f acc e) hrest
    rw [List.foldl_cons]
    cases h : f e.entity_id with
    | none =>
      rw [h1, h2, (baselineEntity_fields_none h).1, (baselineEntity_fields_none h).2]
      exact ⟨rfl, rfl⟩
    | some ps =>
      rw [h1, h2, (baselineEntity_fields_some h).1, (baselineEntity_fields_some h).2]
      constructor
      · rw [countRows_append,
          countRows_single_ne id (mkRow acc.clock e (stateValue ps) ps.attributes) he,
          Nat.add_zero]
      · rw [tblGet_tblSet_ne _ _ _ _ (Ne.symm he)]

theorem baseline_fold_countRows_target (f : String → Option PyState) :
    ∀ (sel : List SelEntity) (acc : BaseAcc) (e : SelEntity),
      e ∈ sel → (sel.map (fun x => x.entity_id)).Nodup →
      countRows e.entity_id (List.foldl (baselineEntity f) acc sel).rows =
        countRows e.entity_id acc.rows +
          (if (f e.entity_id).isSome then 1 else 0)
      ∧ (f e.entity_id = none →
          tblGet (List.foldl (baselineEntity f) acc sel).last_states e.entity_id =
            tblGet acc.last_states e.entity_id) := by
  intro sel
  induction sel with
  | nil => intro acc e he; exact absurd he (List.not_mem_nil e)
  | cons e0 rest ih =>
    intro acc e he hnd
    simp only [List.map_cons, List.nodup_cons] at hnd
    rw [List.foldl_cons]
    rcases List.mem_cons.mp he with rfl | hmem
    · have hrest : ∀ e' ∈ rest, e'.entity_id ≠ e.entity_id := by
        intro e' h' hc
        exact hnd.1 (hc ▸ List.mem_map_of_mem (fun x => x.entity_id) h')
      obtain ⟨h1, h2⟩ :=
        baseline_fold_countRows_pres f e.entity_id rest (baselineEntity f acc e) hrest
      cases h : f e.entity_id with
      | none =>
        rw [h1, h2, (baselineEntity_fields_none h).1, (baselineEntity_fields_none h).2]
        exact ⟨by simp [h], fun _ => rfl⟩
      | some ps =>
        refine ⟨?_, fun hc => by simp [h] at hc⟩
        rw [h1, (baselineEntity_fields_some h).1, countRows_append,
          countRows_single_eq e.entity_id
            (mkRow acc.clock e (stateValue ps) ps.attributes) rfl]
        simp [h]
    · have hne : e0.entity_id ≠ e.entity_id := by
        intro hc
        exact hnd.1 (hc ▸ List.mem_map_of_mem (fun x => x.entity_id) hmem)
      obtain ⟨h1, h2⟩ := ih (baselineEntity f acc e0) e hmem hnd.2
      cases h : f e0.entity_id with
      | none =>
        rw [h1, (baselineEntity_fields_none h).1]
        refine ⟨rfl, fun hc => ?_⟩
        rw [h2 hc, (baselineEntity_fields_none h).2]
      | some ps =>
        constructor
        · rw [h1, (baselineEntity_fields_some h).1, countRows_append,
            countRows_single_ne e.entity_id
              (mkRow acc.clock e0 (stateValue ps) ps.attributes) hne,
            Nat.add_zero]
        · intro hc
          rw [h2 hc, (baselineEntity_fields_some h).2,
            tblGet_tblSet_ne _ _ _ _ (Ne.symm hne)]

theorem baselineRun_fields (f : String → Option PyState) (sel : List SelEntity)
    (c : Nat) :
    (baselineRun f sel c).rows =
      (List.foldl (baselineEntity f) ⟨c, [], [], []⟩ sel).rows
    ∧ (baselineRun f sel c).last_states =
      (List.foldl (baselineEntity f) ⟨c, [], [], []⟩ sel).last_states := by
  simp [baselineRun]

theorem start_baseline_fields (fe : Bool) (fB : String → Option PyState)
    (fT : Nat → String → Option PyState) (sel : List SelEntity) (n : Nat)
    (hsel : sel ≠ []) :
    (start_group_monitoring fe fB fT sel n).baselineRows = (baselineRun fB sel 0).rows
    ∧ (start_group_monitoring fe fB fT sel n).baseline_last_states =
      (baselineRun fB sel 0).last_states := by
  simp [start_group_monitoring, hsel]

/-! ### Polling-loop lemmas -/

theorem tickEntity_fields_none {f : String → Option PyState} {t : Nat}
    {st : LoopSt} {e : SelEntity} (h : f e.entity_id = none) :
    (tickEntity f t st e).rows = st.rows
    ∧ (tickEntity f t st e).last_states = st.last_states := by
  simp [tickEntity, h]

theorem tickEntity_fields_some {f : String → Option PyState} {t : Nat}
    {st : LoopSt} {e : SelEntity} {ps : PyState} (h : f e.entity_id = some ps) :
    (changedB (stateValue ps) (tblGet st.last_states e.entity_id) = true →
      (tickEntity f t st e).rows =
        st.rows ++ [mkRow t e (stateValue ps) ps.attributes]
      ∧ (tickEntity f t st e).last_states =
        tblSet st.last_states e.entity_id (stateValue ps))
    ∧ (changedB (stateValue ps) (tblGet st.last_states e.entity_id) = false →
      (tickEntity f t st e).rows = st.rows
      ∧ (tickEntity f t st e).last_states = st.last_states) := by
  constructor <;> intro hc <;> simp [tickEntity, h, hc]

theorem tickEntity_target (f : String → Option PyState) (t : Nat)
    (st : LoopSt) (e : SelEntity) :
    tblGet (tickEntity f t st e).last_states e.entity_id =
      recAfter (tblGet st.last_states e.entity_id) [(f e.entity_id).map stateValue]
    ∧ countRows e.entity_id (tickEntity f t st e).rows =
      countRows e.entity_id st.rows +
        countTransitions (tblGet st.last_states e.entity_id)
          [(f e.entity_id).map stateValue] := by
  cases h : f e.entity_id with
  | none =>
    obtain ⟨h1, h2⟩ := tickEntity_fields_none h
    rw [h1, h2]
    simp [recAfter, countTransitions]
  | some ps =>
    cases hc : changedB (stateValue ps) (tblGet st.last_states e.entity_id) with
    | true =>
      obtain ⟨hr, hl⟩ := (tickEntity_fields_some h).1 hc
      rw [hr, hl]
      constructor
      · rw [tblGet_tblSet_self]
        simp [recAfter, hc]
      · rw [countRows_append,
          countRows_single_eq e.entity_id (mkRow t e (stateValue ps) ps.attributes) rfl]
        simp [countTransitions, hc]
    | false =>
      obtain ⟨hr, hl⟩ := (tickEntity_fields_some h).2 hc
      rw [hr, hl]
      constructor
      · simp [recAfter, hc]
      · simp [countTransitions, hc]

theorem tickEntity_other (f : String → Option PyState) (t : Nat) (st : LoopSt)
    (e : SelEntity) (id : String) (h : e.entity_id ≠ id) :
    tblGet (tickEntity f t st e).last_states id = tblGet st.last_states id
    ∧ countRows id (tickEntity f t st e).rows = countRows id st.rows := by
  cases hf : f e.entity_id with
  | none =>
    obtain ⟨h1, h2⟩ := tickEntity_fields_none hf
    rw [h1, h2]
    exact ⟨rfl, rfl⟩
  | some ps =>
    cases hc : changedB (stateValue ps) (tblGet st.last_states e.entity_id) with
    | true =>
      obtain ⟨hr, hl⟩ := (tickEntity_fields_some hf).1 hc
      rw [hr, hl]
      refine ⟨tblGet_tblSet_ne _ _ _ _ (Ne.symm h), ?_⟩
      rw [countRows_append,
        countRows_single_ne id (mkRow t e (stateValue ps) ps.attributes) h,
        Nat.add_zero]
    | false =>
      obtain ⟨hr, hl⟩ := (tickEntity_fields_some hf).2 hc
      rw [hr, hl]
      exact ⟨rfl, rfl⟩

theorem tick_fold_pres (f : String → Option PyState) (t : Nat) (id : String) :
    ∀ (sel : List SelEntity) (st : LoopSt),
      (∀ e ∈ sel, e.entity_id ≠ id) →
      tblGet (List.foldl (tickEntity f t) st sel).last_states id =
        tblGet st.last_states id
      ∧ countRows id (List.foldl (tickEntity f t) st sel).rows =
        countRows id st.rows := by
  intro sel
  induction sel with
  | nil => intro st _; exact ⟨rfl, rfl⟩
  | cons e rest ih =>
    intro st hne
    obtain ⟨h1, h2⟩ :=
      ih (tickEntity f t st e) (fun e' h' => hne e' (List.mem_cons_of_mem _ h'))
    obtain ⟨p1, p2⟩ := tickEntity_other f t st e id (hne e (List.mem_cons_self _ _))
    rw [List.foldl_cons]
    exact ⟨h1.trans p1, h2.trans p2⟩

theorem tick_fold_target (f : String → Option PyState) (t : Nat) :
    ∀ (sel : List SelEntity) (st : LoopSt) (e : SelEntity),
      e ∈ sel → (sel.map (fun x => x.entity_id)).Nodup →
      tblGet (List.foldl (tickEntity f t) st sel).last_states e.entity_id =
        recAfter (tblGet st.last_states e.entity_id) [(f e.entity_id).map stateValue]
      ∧ countRows e.entity_id (List.foldl (tickEntity f t) st sel).rows =
        countRows e.entity_id st.rows +
          countTransitions (tblGet st.last_states e.entity_id)
            [(f e.entity_id).map stateValue] := by
  intro sel
  induction sel with
  | nil => intro st e he; exact absurd he (List.not_mem_nil e)
  | cons e0 rest ih =>
    intro st e he hnd
    simp only [List.map_cons, List.nodup_cons] at hnd
    rw [List.foldl_cons]
    rcases List.mem_cons.mp he with rfl | hmem
    · have hrest : ∀ e' ∈ rest, e'.entity_id ≠ e.entity_id := by
        intro e' h' hc
        exact hnd.1 (hc ▸ List.mem_map_of_mem (fun x => x.entity_id) h')
      obtain ⟨h1, h2⟩ := tick_fold_pres f t e.entity_id rest (tickEntity f t st e) hrest
      obtain ⟨p1, p2⟩ := tickEntity_target f t st e
      exact ⟨h1.trans p1, by rw [h2, p2]⟩
    · have hne0 : e0.entity_id ≠ e.entity_id := by
        intro hc
        exact hnd.1 (hc ▸ List.mem_map_of_mem (fun x => x.entity_id) hmem)
      obtain ⟨p1, p2⟩ := tickEntity_other f t st e0 e.entity_id hne0
      obtain ⟨h1, h2⟩ := ih (tickEntity f t st e0) e hmem hnd.2
      rw [h1, h2, p1, p2]
      exact ⟨rfl, rfl⟩

theorem oneTick_fields (f : String → Option PyState) (sel : List SelEntity)
    (st : LoopSt) :
    (oneTick f sel st).last_states =
      (List.foldl (tickEntity f st.clock)
        { st with checks_count := st.checks_count + 1, clock := st.clock + 1 }
        sel).last_states
    ∧ (oneTick f sel st).rows =
      (List.foldl (tickEntity f st.clock)
        { st with checks_count := st.checks_count + 1, clock := st.clock + 1 }
        sel).rows := by
  simp [oneTick]

theorem oneTick_target (f : String → Option PyState) (sel : List SelEntity)
    (st : LoopSt) (e : SelEntity) (he : e ∈ sel)
    (hnd : (sel.map (fun x => x.entity_id)).Nodup) :
    tblGet (oneTick f sel st).last_states e.entity_id =
      recAfter (tblGet st.last_states e.entity_id) [(f e.entity_id).map stateValue]
    ∧ countRows e.entity_id (oneTick f sel st).rows =
      countRows e.entity_id st.rows +
        countTransitions (tblGet st.last_states e.entity_id)
          [(f e.entity_id).map stateValue] := by
  obtain ⟨hl, hr⟩ := oneTick_fields f sel st
  obtain ⟨h1, h2⟩ := tick_fold_target f st.clock sel
    { st with checks_count := st.checks_count + 1, clock := st.clock + 1 } e he hnd
  rw [hl, hr, h1, h2]
  exact ⟨rfl, rfl⟩

theorem recAfter_cons (cur x : Option String) (rest : List (Option String)) :
    recAfter cur (x :: rest) = recAfter (recAfter cur [x]) rest := by
  cases x with
  | none => simp [recAfter]
  | some s => cases hc : changedB s cur <;> simp [recAfter, hc]

theorem countTransitions_cons (cur x : Option String)
    (rest : List (Option String)) :
    countTransitions cur (x :: rest) =
      countTransitions cur [x] + countTransitions (recAfter cur [x]) rest := by
  cases x with
  | none => simp [countTransitions, recAfter]
  | some s =>
    cases hc : changedB s cur <;> simp [countTransitions, recAfter, hc, Nat.add_comm]

theorem entityTickResults_succ (fT : Nat → String → Option PyState) (id : String)
    (k n : Nat) :
    entityTickResults fT id k (n + 1) =
      ((fT k id).map stateValue) :: entityTickResults fT id (k + 1) n := by
  simp [entityTickResults, List.range'_succ]

theorem runTicks_target (fT : Nat → String → Option PyState)
    (sel : List SelEntity) (e : SelEntity) (he : e ∈ sel)
    (hnd : (sel.map (fun x => x.entity_id)).Nodup) :
    ∀ (n k : Nat) (st : LoopSt),
      tblGet (runTicks fT sel k n st).last_states e.entity_id =
        recAfter (tblGet st.last_states e.entity_id)
          (entityTickResults fT e.entity_id k n)
      ∧ countRows e.entity_id (runTicks fT sel k n st).rows =
        countRows e.entity_id st.rows +
          countTransitions (tblGet st.last_states e.entity_id)
            (entityTickResults fT e.entity_id k n) := by
  intro n
  induction n with
  | zero =>
    intro k st
    simp [runTicks, entityTickResults, recAfter, countTransitions]
  | succ n ih =>
    intro k st
    rw [runTicks]
    obtain ⟨o1, o2⟩ := oneTick_target (fT k) sel st e he hnd
    obtain ⟨h1, h2⟩ := ih (k + 1) (oneTick (fT k) sel st)
    rw [entityTickResults_succ, recAfter_cons, countTransitions_cons]
    constructor
    · rw [h1, o1]
    · rw [h2, o2, o1]
      omega

theorem monitor_loop_fields (fT : Nat → String → Option PyState)
    (sel : List SelEntity) (n : Nat) (st : LoopSt) :
    (monitor_loop fT sel n st).last_states = (runTicks fT sel 0 n st).last_states
    ∧ (monitor_loop fT sel n st).rows = (runTicks fT sel 0 n st).rows := by
  simp [monitor_loop]

theorem start_tick_fields (fe : Bool) (fB : String → Option PyState)
    (fT : Nat → String → Option PyState) (sel : List SelEntity) (n : Nat)
    (hsel : sel ≠ []) :
    (start_group_monitoring fe fB fT sel n).tickRows =
      (monitor_loop fT sel n
        ⟨(baselineRun fB sel 0).clock, (baselineRun fB sel 0).last_states,
          [], [], 0, 0⟩).rows := by
  simp [start_group_monitoring, hsel]

/-! ### Event-trace lemmas -/

theorem baselineEntity_events_none {f : String → Option PyState} {acc : BaseAcc}
    {e : SelEntity} (h : f e.entity_id = none) :
    (baselineEntity f acc e).events =
      acc.events ++ [MEvent.fetch e.entity_id false] := by
  simp [baselineEntity, h]

theorem baselineEntity_events_some {f : String → Option PyState} {acc : BaseAcc}
    {e : SelEntity} {ps : PyState} (h : f e.entity_id = some ps) :
    (baselineEntity f acc e).events =
      acc.events ++ [MEvent.fetch e.entity_id true, MEvent.write] := by
  simp [baselineEntity, h]

theorem tickEntity_events_none {f : String → Option PyState} {t : Nat}
    {st : LoopSt} {e : SelEntity} (h : f e.entity_id = none) :
    (tickEntity f t st e).events =
      st.events ++ [MEvent.fetch e.entity_id false] := by
  simp [tickEntity, h]

theorem tickEntity_events_some {f : String → Option PyState} {t : Nat}
    {st : LoopSt} {e : SelEntity} {ps : PyState} (h : f e.entity_id = some ps) :
    (tickEntity f t st e).events = st.events ++
      (if changedB (stateValue ps) (tblGet st.last_states e.entity_id) then
        [MEvent.fetch e.entity_id true, MEvent.write, MEvent.flush]
      else [MEvent.fetch e.entity_id true]) := by
  cases hc : changedB (stateValue ps) (tblGet st.last_states e.entity_id) <;>
    simp [tickEntity, h, hc]

theorem oneTick_events (f : String → Option PyState) (sel : List SelEntity)
    (st : LoopSt) :
    (oneTick f sel st).events =
      (List.foldl (tickEntity f st.clock)
        { st with checks_count := st.checks_count + 1, clock := st.clock + 1 }
        sel).events
      ++ (if (st.checks_count + 1) % 100 == 0 then [MEvent.stats] else [])
      ++ [MEvent.sleep] := by
  simp [oneTick]

theorem flushScan_append (p : Bool) (a b : List MEvent) :
    flushScan p (a ++ b) = (flushScan p a).bind (fun q => flushScan q b) := by
  induction a generalizing p with
  | nil => simp [flushScan]
  | cons e rest ih => cases e <;> cases p <;> simp [flushScan, ih]

theorem immedScan_append (p : Bool) (a b : List MEvent) :
    immedScan p (a ++ b) = (immedScan p a).bind (fun q => immedScan q b) := by
  induction a generalizing p with
  | nil => simp [immedScan]
  | cons e rest ih => cases e <;> cases p <;> simp [immedScan, ih]

theorem scans_tickEntity (f : String → Option PyState) (t : Nat) (st : LoopSt)
    (e : SelEntity)
    (h1 : flushScan false st.events = some false)
    (h2 : immedScan false st.events = some false) :
    flushScan false (tickEntity f t st e).events = some false
    ∧ immedScan false (tickEntity f t st e).events = some false := by
  cases hf : f e.entity_id with
  | none =>
    rw [tickEntity_events_none hf, flushScan_append, immedScan_append, h1, h2]
    exact ⟨rfl, rfl⟩
  | some ps =>
    rw [tickEntity_events_some hf, flushScan_append, immedScan_append, h1, h2]
    cases hc : changedB (stateValue ps) (tblGet st.last_states e.entity_id) <;>
      exact ⟨rfl, rfl⟩

theorem scans_tick_fold (f : String → Option PyState) (t : Nat) :
    ∀ (sel : List SelEntity) (st : LoopSt),
      flushScan false st.events = some false →
      immedScan false st.events = some false →
      flushScan false (List.foldl (tickEntity f t) st sel).events = some false
      ∧ immedScan false (List.foldl (tickEntity f t) st sel).events = some false := by
  intro sel
  induction sel with
  | nil => intro st h1 h2; exact ⟨h1, h2⟩
  | cons e rest ih =>
    intro st h1 h2
    obtain ⟨p1, p2⟩ := scans_tickEntity f t st e h1 h2
    rw [List.foldl_cons]
    exact ih (tickEntity f t st e) p1 p2

theorem scans_oneTick (f : String → Option PyState) (sel : List SelEntity)
    (st : LoopSt)
    (h1 : flushScan false st.events = some false)
    (h2 : immedScan false st.events = some false) :
    flushScan false (oneTick f sel st).events = some false
    ∧ immedScan false (oneTick f sel st).events = some false := by
  obtain ⟨p1, p2⟩ := scans_tick_fold f st.clock sel
    { st with checks_count := st.checks_count + 1, clock := st.clock + 1 } h1 h2
  rw [oneTick_events, flushScan_append, flushScan_append, p1,
    immedScan_append, immedScan_append, p2]
  cases hc : (st.checks_count + 1) % 100 == 0 <;> exact ⟨rfl, rfl⟩

theorem scans_runTicks (fT : Nat → String → Option PyState)
    (sel : List SelEntity) :
    ∀ (n k : Nat) (st : LoopSt),
      flushScan false st.events = some false →
      immedScan false st.events = some false →
      flushScan false (runTicks fT sel k n st).events = some false
      ∧ immedScan false (runTicks fT sel k n st).events = some false := by
  intro n
  induction n with
  | zero => intro k st h1 h2; exact ⟨h1, h2⟩
  | succ n ih =>
    intro k st h1 h2
    obtain ⟨p1, p2⟩ := scans_oneTick (fT k) sel st h1 h2
    rw [runTicks]
    exact ih (k + 1) (oneTick (fT k) sel st) p1 p2

theorem scans_monitor_loop (fT : Nat → String → Option PyState)
    (sel : List SelEntity) (n : Nat) (st : LoopSt)
    (h1 : flushScan false st.events = some false)
    (h2 : immedScan false st.events = some false) :
    flushScan false (monitor_loop fT sel n st).events = some false
    ∧ immedScan false (monitor_loop fT sel n st).events = some false := by
  obtain ⟨p1, p2⟩ := scans_runTicks fT sel n 0 st h1 h2
  constructor
  · show flushScan false ((runTicks fT sel 0 n st).events ++ [MEvent.closeSink]) = _
    rw [flushScan_append, p1]
    rfl
  · show immedScan false ((runTicks fT sel 0 n st).events ++ [MEvent.closeSink]) = _
    rw [immedScan_append, p2]
    rfl

theorem flushScan_baseline_fold (f : String → Option PyState) :
    ∀ (sel : List SelEntity) (acc : BaseAcc) (q : Bool),
      flushScan false acc.events = some q →
      ∃ q', flushScan false (List.foldl (baselineEntity f) acc sel).events =
        some q' := by
  intro sel
  induction sel with
  | nil => intro acc q h; exact ⟨q, h⟩
  | cons e rest ih =>
    intro acc q h
    rw [List.foldl_cons]
    cases hf : f e.entity_id with
    | none =>
      refine ih (baselineEntity f acc e) q ?_
      rw [baselineEntity_events_none hf, flushScan_append, h]
      rfl
    | some ps =>
      refine ih (baselineEntity f acc e) true ?_
      rw [baselineEntity_events_some hf, flushScan_append, h]
      rfl

theorem baselineRun_events (f : String → Option PyState) (sel : List SelEntity)
    (c : Nat) :
    (baselineRun f sel c).events =
      (List.foldl (baselineEntity f) ⟨c, [], [], []⟩ sel).events
        ++ [MEvent.flush] := by
  simp [baselineRun]

theorem start_events (fe : Bool) (fB : String → Option PyState)
    (fT : Nat → String → Option PyState) (sel : List SelEntity) (n : Nat)
    (hsel : sel ≠ []) :
    (start_group_monitoring fe fB fT sel n).events =
      ([MEvent.openSink fe] ++ (if fe then [] else [MEvent.header]))
      ++ (baselineRun fB sel 0).events
      ++ (monitor_loop fT sel n
        ⟨(baselineRun fB sel 0).clock, (baselineRun fB sel 0).last_states,
          [], [], 0, 0⟩).events := by
  simp [start_group_monitoring, hsel]

theorem flushScan_of_immedScan :
    ∀ (evs : List MEvent) (p : Bool), immedScan p evs = some false →
      flushScan p evs = some false := by
  intro evs
  induction evs with
  | nil =>
    intro p h
    simp only [immedScan, Option.some.injEq] at h
    simp [flushScan, h]
  | cons e rest ih =>
    intro p h
    cases e <;> cases p <;>
      simp only [immedScan, flushScan] at h ⊢ <;>
      first
      | exact ih _ h
      | simp at h

/-! ### Header-absence lemmas -/

theorem header_not_in_baseline_fold (f : String → Option PyState) :
    ∀ (sel : List SelEntity) (acc : BaseAcc),
      MEvent.header ∈ (List.foldl (baselineEntity f) acc sel).events →
      MEvent.header ∈ acc.events := by
  intro sel
  induction sel with
  | nil => intro acc h; exact h
  | cons e rest ih =>
    intro acc h
    rw [List.foldl_cons] at h
    have h2 := ih (baselineEntity f acc e) h
    cases hf : f e.entity_id with
    | none =>
      rw [baselineEntity_events_none hf] at h2
      rcases List.mem_append.mp h2 with h2 | h2
      · exact h2
      · simp at h2
    | some ps =>
      rw [baselineEntity_events_some hf] at h2
      rcases List.mem_append.mp h2 with h2 | h2
      · exact h2
      · simp at h2

theorem header_not_in_tick_fold (f : String → Option PyState) (t : Nat) :
    ∀ (sel : List SelEntity) (st : LoopSt),
      MEvent.header ∈ (List.foldl (tickEntity f t) st sel).events →
      MEvent.header ∈ st.events := by
  intro sel
  induction sel with
  | nil => intro st h; exact h
  | cons e rest ih =>
    intro st h
    rw [List.foldl_cons] at h
    have h2 := ih (tickEntity f t st e) h
    cases hf : f e.entity_id with
    | none =>
      rw [tickEntity_events_none hf] at h2
      rcases List.mem_append.mp h2 with h2 | h2
      · exact h2
      · simp at h2
    | some ps =>
      rw [tickEntity_events_some hf] at h2
      rcases List.mem_append.mp h2 with h2 | h2
      · exact h2
      · cases hc : changedB (stateValue ps) (tblGet st.last_states e.entity_id) <;>
          rw [hc] at h2 <;> simp at h2

theorem header_not_in_runTicks (fT : Nat → String → Option PyState)
    (sel : List SelEntity) :
    ∀ (n k : Nat) (st : LoopSt),
      MEvent.header ∈ (runTicks fT sel k n st).events →
      MEvent.header ∈ st.events := by
  intro n
  induction n with
  | zero => intro k st h; exact h
  | succ n ih =>
    intro k st h
    rw [runTicks] at h
    have h2 := ih (k + 1) (oneTick (fT k) sel st) h
    rw [oneTick_events] at h2
    rcases List.mem_append.mp h2 with h2 | h2
    · rcases List.mem_append.mp h2 with h2 | h2
      · exact header_not_in_tick_fold (fT k) st.clock sel
          { st with checks_count := st.checks_count + 1, clock := st.clock + 1 } h2
      · cases hc : (st.checks_count + 1) % 100 == 0 <;> rw [hc] at h2 <;> simp at h2
    · simp at h2

theorem header_not_in_monitor_loop (fT : Nat → String → Option PyState)
    (sel : List SelEntity) (n : Nat) (st : LoopSt)
    (h : MEvent.header ∈ (monitor_loop fT sel n st).events) :
    MEvent.header ∈ st.events := by
  have h2 : MEvent.header ∈
      (runTicks fT sel 0 n st).events ++ [MEvent.closeSink] := h
  rcases List.mem_append.mp h2 with h2 | h2
  · exact header_not_in_runTicks fT sel n 0 st h2
  · simp at h2

/-! ### Theorems -/

/-- **C1.** The spec says the unit-of-measurement fallback sends `Wh`/`kWh`
to energy and only `W`/`kW` to power.  The code tests `"W" in unit` by
substring before `"Wh" in unit`, so both `Wh` and `kWh` are classified as
power (`"Potencia"`), and the `"Energía"` branch of the unit fallback is
unreachable — the code contradicts its own (intended) energy branch. -/
theorem wh_unit_misclassified_as_power :
    (classify_sensor [] whMeter).map (·.type) = .ok "Potencia"
    ∧ (classify_sensor [] kwhMeter).map (·.type) = .ok "Potencia" :=
  ⟨rfl, rfl⟩

/-- **C4.** Starting a monitor session with an empty entity list yields the
configuration-error outcome: no sink is opened, no header or record is
written, no event happens and no last-known-value table is created. -/
theorem empty_selection_is_config_error (fe : Bool)
    (fB : String → Option PyState) (fT : Nat → String → Option PyState)
    (n : Nat) :
    start_group_monitoring fe fB fT [] n =
      { configError := true, sinkOpened := false, headerWritten := false,
        baselineRows := [], baseline_last_states := [], tickRows := [],
        last_states := [], events := [], changes_count := 0,
        checks_count := 0 } := rfl

/-- **C3 (counterexample).** The classification rules do raise on malformed
attribute values: a `None` unit of measurement or a string-valued
`supported_features` raises `TypeError`, and a missing `entity_id` raises
`AttributeError` in the keyword fallback — contradicting the claim that
every rule tolerates such inputs. -/
theorem malformed_attribute_values_raise :
    classify_sensor [] noneUnitSensor = .error .typeError
    ∧ classify_light [] strFeaturesLight = .error .typeError
    ∧ classify_sensor [] noIdSensor = .error .attributeError :=
  ⟨rfl, rfl, rfl⟩

/-- **C3 (amended).** The rules never raise and a *missing* attribute
degrades gracefully, but only for well-typed values: entity id present and a
string, and `friendly_name` / `unit_of_measurement` / `supported_features`,
when present, a string / a string / an integer. -/
theorem well_typed_rules_never_raise (rooms : List String) (e : PyEntity)
    (h : WellTypedEntity e = true) :
    (∃ c, classify_light rooms e = .ok c) ∧ (∃ s, classify_sensor rooms e = .ok s) := by
  have h' := h
  simp only [WellTypedEntity, Bool.and_eq_true] at h'
  obtain ⟨⟨⟨hid, hfn⟩, hunit⟩, hsf⟩ := h'
  obtain ⟨n, hn⟩ := eq_vInt_of_isIntV hsf
  exact ⟨⟨_, classify_light_eq hid hfn hn⟩, classify_sensor_ok hid hfn hunit⟩

theorem well_typed_rules_never_raise_witness :
    (∃ c, classify_light [] whMeter = .ok c)
    ∧ (∃ s, classify_sensor [] whMeter = .ok s) :=
  well_typed_rules_never_raise [] whMeter (by decide)

/-- **C6.** Whenever the feature mask has bit 4 set the lighting category is
`rgb`, regardless of the other bits; and when bit 4 is clear but bit 7 is
set the category is `tunable_white` (so `rgb` beats `tunable_white`, and
`dimmable` is overwritten by either color-derived category). -/
theorem rgb_bit_dominates (rooms : List String) (e : PyEntity) (m : Nat)
    (hid : isStrV (e.entity_id.getD .vNone) = true)
    (hfn : isStrV (pyGetD e.attributes "friendly_name" (.vStr "")) = true)
    (hsf : pyGetD e.attributes "supported_features" (.vInt 0) = .vInt (m : Int)) :
    ∃ c, classify_light rooms e = .ok c
      ∧ (m.testBit 4 = true → c.type = "rgb")
      ∧ (m.testBit 4 = false → m.testBit 7 = true → c.type = "tunable_white") := by
  refine ⟨_, classify_light_eq hid hfn hsf, ?_, ?_⟩
  · intro h4
    simp [lightTypeOf, (land_16_ne_zero m).mpr h4]
  · intro h4 h7
    have h16 : Int.land (m : Int) 16 = 0 :=
      not_ne_iff.mp (fun hc => by simp [(land_16_ne_zero m).mp hc] at h4)
    simp [lightTypeOf, h16, (land_128_ne_zero m).mpr h7]

theorem rgb_bit_dominates_witness :
    ∃ c, classify_light [] rgbLight = .ok c
      ∧ ((145 : Nat).testBit 4 = true → c.type = "rgb")
      ∧ ((145 : Nat).testBit 4 = false → (145 : Nat).testBit 7 = true →
          c.type = "tunable_white") :=
  rgb_bit_dominates [] rgbLight 145 (by decide) (by decide) rfl

/-- **C7.** A zero feature mask classifies as `switch` with capabilities
exactly `["on/off"]`; and whenever none of bits 0, 2, 4, 7 is set (in
particular for nonzero masks with no recognized bit) the capabilities
default to `["on/off"]` and the category falls through to `switch`. -/
theorem unrecognized_mask_is_switch (rooms : List String) (e : PyEntity) (m : Nat)
    (hid : isStrV (e.entity_id.getD .vNone) = true)
    (hfn : isStrV (pyGetD e.attributes "friendly_name" (.vStr "")) = true)
    (hsf : pyGetD e.attributes "supported_features" (.vInt 0) = .vInt (m : Int)) :
    ∃ c, classify_light rooms e = .ok c
      ∧ (m = 0 → c.type = "switch" ∧ c.capabilities = ["on/off"])
      ∧ (m.testBit 0 = false → m.testBit 2 = false → m.testBit 4 = false →
          m.testBit 7 = false → c.type = "switch" ∧ c.capabilities = ["on/off"]) := by
  refine ⟨_, classify_light_eq hid hfn hsf, ?_, ?_⟩
  · rintro rfl
    constructor <;> rfl
  · intro h0 h2 h4 h7
    have e1 : Int.land (m : Int) 1 = 0 :=
      not_ne_iff.mp (fun hc => by simp [(land_1_ne_zero m).mp hc] at h0)
    have e4 : Int.land (m : Int) 4 = 0 :=
      not_ne_iff.mp (fun hc => by simp [(land_4_ne_zero m).mp hc] at h2)
    have e16 : Int.land (m : Int) 16 = 0 :=
      not_ne_iff.mp (fun hc => by simp [(land_16_ne_zero m).mp hc] at h4)
    have e128 : Int.land (m : Int) 128 = 0 :=
      not_ne_iff.mp (fun hc => by simp [(land_128_ne_zero m).mp hc] at h7)
    constructor
    · simp [lightTypeOf, e1, e16, e128]
    · simp [lightCapsOf, e1, e4, e16, e128]

theorem unrecognized_mask_is_switch_witness :
    ∃ c, classify_light [] plainLight = .ok c
      ∧ ((2 : Nat) = 0 → c.type = "switch" ∧ c.capabilities = ["on/off"])
      ∧ ((2 : Nat).testBit 0 = false → (2 : Nat).testBit 2 = false →
          (2 : Nat).testBit 4 = false → (2 : Nat).testBit 7 = false →
          c.type = "switch" ∧ c.capabilities = ["on/off"]) :=
  unrecognized_mask_is_switch [] plainLight 2 (by decide) (by decide) rfl

/-- **C2.** During steady-state polling, on every successful fetch a record
is written iff the fetched raw state differs from the table's current entry
(absence counting as different), and the table entry is updated exactly when
such a write occurs; hence, for a fixed sequence of per-tick fetch results,
the number of post-baseline records for an entity equals the number of times
its fetched state differs from its immediately preceding recorded state. -/
theorem write_iff_changed_and_count :
    (∀ (f : String → Option PyState) (t : Nat) (st : LoopSt) (e : SelEntity)
        (ps : PyState), f e.entity_id = some ps →
      (changedB (stateValue ps) (tblGet st.last_states e.entity_id) = true →
        (tickEntity f t st e).rows =
          st.rows ++ [mkRow t e (stateValue ps) ps.attributes]
        ∧ (tickEntity f t st e).last_states =
          tblSet st.last_states e.entity_id (stateValue ps))
      ∧ (changedB (stateValue ps) (tblGet st.last_states e.entity_id) = false →
        (tickEntity f t st e).rows = st.rows
        ∧ (tickEntity f t st e).last_states = st.last_states))
    ∧ (∀ (fe : Bool) (fB : String → Option PyState)
        (fT : Nat → String → Option PyState) (sel : List SelEntity) (n : Nat)
        (e : SelEntity), e ∈ sel → (sel.map (fun x => x.entity_id)).Nodup →
        countRows e.entity_id (start_group_monitoring fe fB fT sel n).tickRows =
          countTransitions
            (tblGet (start_group_monitoring fe fB fT sel n).baseline_last_states
              e.entity_id)
            (entityTickResults fT e.entity_id 0 n)) := by
  constructor
  · intro f t st e ps h
    exact tickEntity_fields_some h
  · intro fe fB fT sel n e he hnd
    have hsel : sel ≠ [] := by
      rintro rfl
      exact absurd he (List.not_mem_nil e)
    rw [start_tick_fields fe fB fT sel n hsel,
      (start_baseline_fields fe fB fT sel n hsel).2,
      (monitor_loop_fields fT sel n _).2,
      (runTicks_target fT sel e he hnd n 0 _).2]
    simp [countRows]

theorem write_iff_changed_and_count_witness :
    ((tickEntity constFetch 0 st0Empty seKitchen).rows =
        st0Empty.rows ++ [mkRow 0 seKitchen (stateValue offPS) offPS.attributes]
      ∧ (tickEntity constFetch 0 st0Empty seKitchen).last_states =
        tblSet st0Empty.last_states seKitchen.entity_id (stateValue offPS))
    ∧ countRows seKitchen.entity_id
        (start_group_monitoring false constFetch scenarioFetchT
          [seKitchen] 4).tickRows =
      countTransitions
        (tblGet (start_group_monitoring false constFetch scenarioFetchT
            [seKitchen] 4).baseline_last_states seKitchen.entity_id)
        (entityTickResults scenarioFetchT seKitchen.entity_id 0 4) :=
  ⟨(write_iff_changed_and_count.1 constFetch 0 st0Empty seKitchen offPS
      (by decide)).1 (by decide),
    write_iff_changed_and_count.2 false constFetch scenarioFetchT [seKitchen] 4
      seKitchen (by decide) (by decide)⟩

/-- **C5.** Immediately after the baseline phase the sink holds exactly one
record per successfully-fetched watched entity and the table's size equals
that count; a failed per-entity fetch is not fatal and leaves that entity
absent from both the baseline records and the table. -/
theorem baseline_one_record_per_success (fe : Bool)
    (fB : String → Option PyState) (fT : Nat → String → Option PyState)
    (sel : List SelEntity) (n : Nat)
    (hnd : (sel.map (fun e => e.entity_id)).Nodup) :
    (start_group_monitoring fe fB fT sel n).baselineRows.length =
      (sel.filter (fun e => (fB e.entity_id).isSome)).length
    ∧ (start_group_monitoring fe fB fT sel n).baseline_last_states.length =
      (start_group_monitoring fe fB fT sel n).baselineRows.length
    ∧ ∀ e ∈ sel,
        ((fB e.entity_id).isSome = true →
          countRows e.entity_id
            (start_group_monitoring fe fB fT sel n).baselineRows = 1)
        ∧ (fB e.entity_id = none →
          countRows e.entity_id
            (start_group_monitoring fe fB fT sel n).baselineRows = 0
          ∧ tblGet (start_group_monitoring fe fB fT sel n).baseline_last_states
              e.entity_id = none) := by
  by_cases hsel : sel = []
  · subst hsel
    exact ⟨rfl, rfl, fun e he => absurd he (List.not_mem_nil e)⟩
  · obtain ⟨hr, hl⟩ := start_baseline_fields fe fB fT sel n hsel
    obtain ⟨br, bl⟩ := baselineRun_fields fB sel 0
    rw [hr, hl, br, bl]
    refine ⟨?_, ?_, ?_⟩
    · rw [baseline_fold_rows_length]
      simp
    · rw [baseline_fold_table_length fB sel _ hnd (by intro e _; simp),
        baseline_fold_rows_length]
      simp
    · intro e he
      obtain ⟨h1, h2⟩ :=
        baseline_fold_countRows_target fB sel ⟨0, [], [], []⟩ e he hnd
      refine ⟨fun hsome => ?_, fun hnone => ⟨?_, ?_⟩⟩
      · rw [h1]
        simp [countRows, hsome]
      · rw [h1]
        simp [countRows, hnone]
      · rw [h2 hnone]
        simp [tblGet]

theorem baseline_one_record_per_success_witness :
    (start_group_monitoring false mixedFetch constFetchT
        [seKitchen, seSalon] 0).baselineRows.length =
      ([seKitchen, seSalon].filter (fun e => (mixedFetch e.entity_id).isSome)).length
    ∧ countRows "light.kitchen"
        (start_group_monitoring false mixedFetch constFetchT
          [seKitchen, seSalon] 0).baselineRows = 1
    ∧ countRows "light.salon"
        (start_group_monitoring false mixedFetch constFetchT
          [seKitchen, seSalon] 0).baselineRows = 0
    ∧ tblGet (start_group_monitoring false mixedFetch constFetchT
          [seKitchen, seSalon] 0).baseline_last_states "light.salon" = none := by
  have h := baseline_one_record_per_success false mixedFetch constFetchT
    [seKitchen, seSalon] 0 (by decide)
  exact ⟨h.1, (h.2.2 seKitchen (by simp)).1 (by decide),
    ((h.2.2 seSalon (by simp)).2 (by decide)).1,
    ((h.2.2 seSalon (by simp)).2 (by decide)).2⟩

/-- **C8 (counterexample).** With two watched entities whose baseline
fetches succeed, the baseline phase performs its two writes and only then a
single flush, so it is not the case that every successful write is followed
by an immediate flush before any further step. -/
theorem baseline_write_not_immediately_flushed :
    writesImmediatelyFlushed
      (start_group_monitoring false constFetch constFetchT
        [seKitchen, seSalon] 0).events = false := rfl

/-- **C8 (amended).** Every written record is flushed before the worker
next sleeps or closes the sink (in particular the baseline records are
flushed once, after the baseline loop and before any tick); in the
steady-state polling loop every write is immediately followed by a flush. -/
theorem writes_flushed_amended :
    (∀ (fe : Bool) (fB : String → Option PyState)
        (fT : Nat → String → Option PyState) (sel : List SelEntity) (n : Nat),
      writesFlushed (start_group_monitoring fe fB fT sel n).events = true)
    ∧ (∀ (fT : Nat → String → Option PyState) (sel : List SelEntity) (n : Nat)
        (st : LoopSt), writesImmediatelyFlushed st.events = true →
      writesImmediatelyFlushed (monitor_loop fT sel n st).events = true) := by
  constructor
  · intro fe fB fT sel n
    by_cases hsel : sel = []
    · subst hsel
      rfl
    · obtain ⟨q', hq⟩ :=
        flushScan_baseline_fold fB sel ⟨0, [], [], []⟩ false rfl
      have hflush : flushScan false (baselineRun fB sel 0).events = some false := by
        rw [baselineRun_events, flushScan_append, hq]
        cases q' <;> rfl
      have hloop := (scans_monitor_loop fT sel n
        ⟨(baselineRun fB sel 0).clock, (baselineRun fB sel 0).last_states,
          [], [], 0, 0⟩ rfl rfl).1
      have hevs0 : flushScan false
          ([MEvent.openSink fe] ++ (if fe then [] else [MEvent.header])) =
          some false := by
        cases fe <;> rfl
      rw [writesFlushed, start_events fe fB fT sel n hsel, flushScan_append,
        flushScan_append, hevs0, Option.some_bind, hflush, Option.some_bind,
        hloop]
      rfl
  · intro fT sel n st h
    have h2 : immedScan false st.events = some false := by
      rw [writesImmediatelyFlushed] at h
      exact eq_of_beq h
    have h1 : flushScan false st.events = some false :=
      flushScan_of_immedScan st.events false h2
    have h3 := (scans_monitor_loop fT sel n st h1 h2).2
    rw [writesImmediatelyFlushed, h3]
    rfl

theorem writes_flushed_amended_witness :
    writesFlushed (start_group_monitoring false constFetch constFetchT
      [seKitchen, seSalon] 2).events = true
    ∧ writesImmediatelyFlushed
        (monitor_loop scenarioFetchT [seKitchen] 4 st0Empty).events = true :=
  ⟨writes_flushed_amended.1 false constFetch constFetchT [seKitchen, seSalon] 2,
    writes_flushed_amended.2 scenarioFetchT [seKitchen] 4 st0Empty (by decide)⟩

/-- **C9.** A header row is written iff the sink file did not previously
exist, and no later phase of the session ever re-emits a header event:
re-opening an existing sink appends records without the header. -/
theorem header_iff_new_sink (fe : Bool) (fB : String → Option PyState)
    (fT : Nat → String → Option PyState) (sel : List SelEntity) (n : Nat)
    (hne : sel ≠ []) :
    (start_group_monitoring fe fB fT sel n).headerWritten = !fe
    ∧ (MEvent.header ∈ (start_group_monitoring fe fB fT sel n).events ↔
        fe = false) := by
  constructor
  · simp [start_group_monitoring, hne]
  · rw [start_events fe fB fT sel n hne]
    constructor
    · intro hm
      rcases List.mem_append.mp hm with hm | hm
      · rcases List.mem_append.mp hm with hm | hm
        · rcases List.mem_append.mp hm with hm | hm
          · simp at hm
          · cases fe with
            | false => rfl
            | true => simp at hm
        · rw [baselineRun_events] at hm
          rcases List.mem_append.mp hm with hm | hm
          · have h2 := header_not_in_baseline_fold fB sel _ hm
            simp at h2
          · simp at hm
      · have h2 := header_not_in_monitor_loop fT sel n _ hm
        simp at h2
    · intro hfe
      subst hfe
      simp

theorem header_iff_new_sink_witness :
    ((start_group_monitoring true constFetch constFetchT [seKitchen] 0).headerWritten
        = !true
      ∧ (MEvent.header ∈
          (start_group_monitoring true constFetch constFetchT [seKitchen] 0).events ↔
          true = false))
    ∧ ((start_group_monitoring false constFetch constFetchT [seKitchen] 0).headerWritten
        = !false
      ∧ (MEvent.header ∈
          (start_group_monitoring false constFetch constFetchT [seKitchen] 0).events ↔
          false = false)) :=
  ⟨header_iff_new_sink true constFetch constFetchT [seKitchen] 0 (by decide),
    header_iff_new_sink false constFetch constFetchT [seKitchen] 0 (by decide)⟩

/-- **C10.** Room inference and room assignment use different matching
texts: the snapshot containing only `light.kitchen` makes `detect_rooms`
add the canonical label `Cocina` (via the keyword `kitchen`), yet
`_extract_room` on that very entity against that RoomSet returns `None`,
because assignment substring-matches the canonical label, not the
keyword. -/
theorem room_inference_and_assignment_disagree :
    detect_rooms [kitchenLight] = .ok ["Cocina"]
    ∧ extract_room ["Cocina"] kitchenLight = .ok none :=
  ⟨rfl, rfl⟩

end HaKnx
